import Mathlib

/-!
Shallow embedding of the qualia repository (a dual-window wgpu/winit
application core) and verification of its specification claims.

Sources embedded:
- `src/context/window.rs` : `WindowContext` (surface configuration, format
  selection, `from_raw`, `resize`);
- `src/session.rs` : `Session`, `SessionAction`, `SessionError`,
  `Session::update`, `Session::render_view`, `Session::render_control`;
- `src/render.rs` : the `Renderer` trait's default `render` protocol and
  `RenderError`;
- `src/lib.rs` : the `App` shell (`Qualia` aggregate, `App::resumed`).

External collaborators (winit windows, wgpu surfaces/devices, egui state)
are modelled as opaque data carrying exactly the observations the embedded
code makes of them; side effects on them are recorded in an explicit
effect trace.
-/

namespace QualiaSpec

/-- winit PhysicalSize of u32 dimensions. The embedded code only compares
dimensions with 0 and clamps with max, so Nat is a faithful carrier. -/
structure PhysicalSize where
  width : Nat
  height : Nat
deriving DecidableEq, Repr

/-- wgpu TextureFormat, opaque except for identity and the one predicate the
code queries, `is_srgb`. -/
structure TextureFormat where
  id : Nat
  srgb : Bool
deriving DecidableEq, Repr

/-- TextureFormat::is_srgb (wgpu): the sRGB tag the selection code tests. -/
def TextureFormat.is_srgb (f : TextureFormat) : Bool :=
  f.srgb

/-- wgpu PresentMode; the code only ever writes Fifo. -/
inductive PresentMode where
  | fifo
  | immediate
  | mailbox
deriving DecidableEq, Repr

/-- wgpu CompositeAlphaMode, opaque: the code takes the first supported one. -/
structure AlphaMode where
  id : Nat
deriving DecidableEq, Repr

/-- wgpu TextureUsages; the code only ever writes RENDER_ATTACHMENT. -/
inductive TextureUsage where
  | renderAttachment
deriving DecidableEq, Repr

/-- wgpu SurfaceConfiguration, with the exact fields the code writes
(`src/context/window.rs`, `WindowContext::from_raw` and `resize`). -/
structure SurfaceConfiguration where
  usage : TextureUsage
  format : TextureFormat
  width : Nat
  height : Nat
  present_mode : PresentMode
  alpha_mode : AlphaMode
  view_formats : List TextureFormat
  desired_maximum_frame_latency : Nat
deriving DecidableEq, Repr

/-- wgpu SurfaceCapabilities: the capability sets `from_raw` queries. -/
structure SurfaceCapabilities where
  formats : List TextureFormat
  alpha_modes : List AlphaMode
deriving DecidableEq, Repr

/-- wgpu SurfaceError: the error cases of Surface::get_current_texture. -/
inductive SurfaceError where
  | timeout
  | outdated
  | lost
  | outOfMemory
deriving DecidableEq, Repr

/-- wgpu SurfaceTexture: the acquired presentable frame, opaque. -/
structure SurfaceTexture where
  texture : Nat
deriving DecidableEq, Repr

/-- Decidable equality for Except values with decidable components. -/
instance {ε α : Type} [DecidableEq ε] [DecidableEq α] :
    DecidableEq (Except ε α) := fun a b =>
  match a, b with
  | .ok x, .ok y =>
      if h : x = y then .isTrue (by rw [h])
      else .isFalse (by intro hc; cases hc; exact h rfl)
  | .ok _, .error _ => .isFalse (by intro hc; cases hc)
  | .error _, .ok _ => .isFalse (by intro hc; cases hc)
  | .error x, .error y =>
      if h : x = y then .isTrue (by rw [h])
      else .isFalse (by intro hc; cases hc; exact h rfl)

/-- A wgpu Surface as the embedded code observes it: its capability sets
(returned by get_capabilities against the adapter) and the outcome the
presentation engine would give the next get_current_texture call. -/
structure Surface where
  caps : SurfaceCapabilities
  nextFrame : Except SurfaceError SurfaceTexture
deriving DecidableEq, Repr

/-- A winit Window as observed by the code: its WindowId and inner_size. -/
structure Window where
  id : Nat
  inner_size : PhysicalSize
deriving DecidableEq, Repr

/-- Opaque wgpu Instance handle. -/
structure WgpuInstance where
  id : Nat
deriving DecidableEq, Repr

/-- Opaque wgpu Adapter handle. -/
structure Adapter where
  id : Nat
deriving DecidableEq, Repr

/-- Opaque wgpu Device handle. -/
structure Device where
  id : Nat
deriving DecidableEq, Repr

/-- Opaque wgpu Queue handle. -/
structure Queue where
  id : Nat
deriving DecidableEq, Repr

/-- GpuContext (src/context/gpu.rs): shared GPU resources. -/
structure GpuContext where
  inst : WgpuInstance
  adapter : Adapter
  device : Device
  queue : Queue
deriving DecidableEq, Repr

/-- winit WindowEvent, restricted to the variants the code matches on; all
others fall into the catch-all. -/
inductive WindowEvent where
  | closeRequested
  | resized (size : PhysicalSize)
  | redrawRequested
  | other (tag : Nat)
deriving DecidableEq, Repr

/-- Observable side effects on the external collaborators (surface, window,
queue), recorded as an explicit trace by the embedded operations. -/
inductive Effect where
  | guiOnWindowEvent (consumed : Bool)
  | surfaceConfigure (windowId : Nat) (config : SurfaceConfiguration)
  | renderView
  | renderControl
  | requestRedraw (windowId : Nat)
  | getCurrentTexture (windowId : Nat)
  | createTextureView
  | createCommandEncoder
  | recordCommands (windowId : Nat)
  | queueSubmit
  | present
deriving DecidableEq, Repr

/-- WindowContext (src/context/window.rs): one OS window, its surface and the
stored surface configuration. -/
structure WindowContext where
  window : Window
  surface : Surface
  config : SurfaceConfiguration
deriving DecidableEq, Repr

/-- The pixel-format selection expression of WindowContext::from_raw
(src/context/window.rs:33-38): the first sRGB entry of the supported
formats, else the first entry; none models the panic of `formats[0]` on an
empty capability list. -/
def selectFormat (formats : List TextureFormat) : Option TextureFormat :=
  match formats.find? TextureFormat.is_srgb with
  | some f => some f
  | none => formats.head?

/-- WindowContext::from_raw (src/context/window.rs:24-58): build the surface
configuration from the window size and surface capabilities and configure
the surface once. none models the panic on empty capability lists. -/
def WindowContext.from_raw (window : Window) (surface : Surface)
    (_adapter : Adapter) (_device : Device) :
    Option (WindowContext × List Effect) :=
  let size := window.inner_size
  let caps := surface.caps
  match selectFormat caps.formats, caps.alpha_modes.head? with
  | some format, some alpha =>
      let config : SurfaceConfiguration :=
        { usage := TextureUsage.renderAttachment
          format := format
          width := max size.width 1
          height := max size.height 1
          present_mode := PresentMode.fifo
          alpha_mode := alpha
          view_formats := []
          desired_maximum_frame_latency := 2 }
      some ({ window := window, surface := surface, config := config },
        [Effect.surfaceConfigure window.id config])
  | _, _ => none

/-- WindowContext::resize (src/context/window.rs:60-66): if both dimensions
are positive, store the new width/height and reconfigure the surface;
otherwise do nothing. -/
def WindowContext.resize (wc : WindowContext) (_device : Device)
    (size : PhysicalSize) : WindowContext × List Effect :=
  if 0 < size.width ∧ 0 < size.height then
    let config :=
      { wc.config with width := size.width, height := size.height }
    ({ wc with config := config },
      [Effect.surfaceConfigure wc.window.id config])
  else
    (wc, [])

/-- Opaque egui Context handle. -/
structure EguiContext where
  id : Nat
deriving DecidableEq, Repr

/-- egui_winit State as the Session observes it: `on_window_event` reports
whether the UI consumed the event. The consumption behaviour is external
(egui internals), modelled as an oracle from events to the consumed flag. -/
structure EguiState where
  consumes : WindowEvent → Bool

/-- egui_wgpu Renderer as configured by GuiContext::new: output format and
msaa sample count. -/
structure EguiRenderer where
  output_format : TextureFormat
  msaa_samples : Nat
deriving DecidableEq, Repr

/-- GuiContext (src/context/gui.rs): UI context, input-translation state and
GPU-backed draw renderer. -/
structure GuiContext where
  context : EguiContext
  state : EguiState
  renderer : EguiRenderer

/-- GuiContext::new (src/context/gui.rs:15-42): builds the UI context, the
input state (whose consumption behaviour comes from the external egui
collaborator, passed as an oracle) and a single-sample renderer at the given
output format. -/
def GuiContext.new (_window : Window) (_device : Device)
    (output_format : TextureFormat) (behavior : WindowEvent → Bool) :
    GuiContext :=
  { context := { id := 0 }
    state := { consumes := behavior }
    renderer := { output_format := output_format, msaa_samples := 1 } }

/-- Session (src/session.rs:21-32): the aggregate of GPU context, the two
window contexts and the GUI context. -/
structure Session where
  gpu : GpuContext
  view : WindowContext
  control : WindowContext
  gui : GuiContext

/-- SessionAction (src/session.rs:34-37). -/
inductive SessionAction where
  | Exit
deriving DecidableEq, Repr

/-- winit OsError, opaque. -/
structure OsError where
  code : Nat
deriving DecidableEq, Repr

/-- wgpu CreateSurfaceError, opaque. -/
structure CreateSurfaceError where
  code : Nat
deriving DecidableEq, Repr

/-- wgpu RequestAdapterError, opaque. -/
structure RequestAdapterError where
  code : Nat
deriving DecidableEq, Repr

/-- wgpu RequestDeviceError, opaque. -/
structure RequestDeviceError where
  code : Nat
deriving DecidableEq, Repr

/-- WindowContextError (src/context/window.rs:14-21). -/
inductive WindowContextError where
  | CreateWindow (e : OsError)
  | CreateSurface (e : CreateSurfaceError)
deriving DecidableEq, Repr

/-- GpuContextError (src/context/gpu.rs:13-20). -/
inductive GpuContextError where
  | RequestAdapter (e : RequestAdapterError)
  | RequestDevice (e : RequestDeviceError)
deriving DecidableEq, Repr

/-- SessionError (src/session.rs:39-49): exactly the three construction
failure variants present in the source. -/
inductive SessionError where
  | InitViewWindow (e : WindowContextError)
  | InitControlWindow (e : WindowContextError)
  | InitGpu (e : GpuContextError)
deriving DecidableEq, Repr

/-- Session::render_view (src/session.rs:124-127): the view window's render
path. Its body is a stub (comment "// View render logic...") whose only
effect is requesting a redraw of the view window; `Effect.renderView`
records that this render path was entered. -/
def Session.render_view (s : Session) : Session × List Effect :=
  (s, [Effect.renderView, Effect.requestRedraw s.view.window.id])

/-- Session::render_control (src/session.rs:129-132): the control window's
render path. Its body is a stub (comment "// Gui render logic..") whose only
effect is requesting a redraw of the control window; `Effect.renderControl`
records that this render path was entered. -/
def Session.render_control (s : Session) : Session × List Effect :=
  (s, [Effect.renderControl, Effect.requestRedraw s.control.window.id])

/-- The outcome of Session::update: the mutated session, the returned
Result, and the trace of effects on external collaborators. -/
structure UpdateResult where
  session : Session
  result : Except SessionError (Option SessionAction)
  trace : List Effect

/-- Session::update (src/session.rs:84-122): forward control-window events to
the GUI first and stop when consumed; then dispatch by event kind
(close → Exit action, resize → route to the matching WindowContext,
redraw → route to the matching render path, else nothing). -/
def Session.update (s : Session) (window_id : Nat) (event : WindowEvent) :
    UpdateResult :=
  let guiTrace : List Effect :=
    if window_id = s.control.window.id then
      [Effect.guiOnWindowEvent (s.gui.state.consumes event)]
    else []
  if window_id = s.control.window.id ∧ s.gui.state.consumes event = true then
    { session := s, result := .ok none, trace := guiTrace }
  else
    match event with
    | .closeRequested =>
        { session := s, result := .ok (some SessionAction.Exit),
          trace := guiTrace }
    | .resized new_size =>
        if window_id = s.view.window.id then
          let r := s.view.resize s.gpu.device new_size
          { session := { s with view := r.1 }, result := .ok none,
            trace := guiTrace ++ r.2 }
        else if window_id = s.control.window.id then
          let r := s.control.resize s.gpu.device new_size
          { session := { s with control := r.1 }, result := .ok none,
            trace := guiTrace ++ r.2 }
        else
          { session := s, result := .ok none, trace := guiTrace }
    | .redrawRequested =>
        if window_id = s.view.window.id then
          let r := s.render_view
          { session := r.1, result := .ok none, trace := guiTrace ++ r.2 }
        else if window_id = s.control.window.id then
          let r := s.render_control
          { session := r.1, result := .ok none, trace := guiTrace ++ r.2 }
        else
          { session := s, result := .ok none, trace := guiTrace }
    | .other _ =>
        { session := s, result := .ok none, trace := guiTrace }

/-- Iterated event delivery: fold a list of (window id, event) pairs through
Session::update, keeping only the session state. -/
def Session.run (s : Session) (evs : List (Nat × WindowEvent)) : Session :=
  List.foldl (fun acc p => (acc.update p.1 p.2).session) s evs

/-- RenderError (src/render.rs:28-32): frame acquisition failure wrapper. -/
inductive RenderError where
  | GetFrame (e : SurfaceError)
deriving DecidableEq, Repr

/-- Renderer::render default body (src/render.rs:13-26): acquire the next
frame from the target surface (the only fallible step), create a view over
its image, record one command sequence, submit it to the shared queue,
present the frame and request a redraw of the target window.
Modelled from the spec: the content of the command-recording step is a
`todo!()` placeholder in src/render.rs and the concrete `ViewRenderer` /
`ControlRenderer` variants (src/render/view.rs, src/render/control.rs) are
absent from the sources; recording is modelled as the opaque effect
`Effect.recordCommands`, faithful to the spec's step (3) whose content is
variant-defined and out of scope. -/
def Renderer.render (_gpu : GpuContext) (target : WindowContext) :
    Except RenderError Unit × List Effect :=
  match target.surface.nextFrame with
  | .error e =>
      (.error (RenderError.GetFrame e),
        [Effect.getCurrentTexture target.window.id])
  | .ok _frame =>
      (.ok (),
        [Effect.getCurrentTexture target.window.id,
         Effect.createTextureView,
         Effect.createCommandEncoder,
         Effect.recordCommands target.window.id,
         Effect.queueSubmit,
         Effect.present,
         Effect.requestRedraw target.window.id])

/-- Qualia (src/lib.rs:27-39): the application state aggregate of the lib.rs
iteration of the shell. -/
structure Qualia where
  gpu : GpuContext
  view_window : WindowContext
  control_window : WindowContext
  gui : GuiContext

/-- App (src/lib.rs:22-25): the shell holding an optional session state. -/
structure App where
  state : Option Qualia

/-- The environment App::resumed draws on: the outcomes the external
collaborators (winit window creation, wgpu surface creation, adapter/device
negotiation, egui behaviour) would give during one resumed call. -/
structure ResumedEnv where
  view_window_and_surface : Except WindowContextError (Window × Surface)
  control_window_and_surface : Except WindowContextError (Window × Surface)
  gpu : Except GpuContextError GpuContext
  gui_behavior : WindowEvent → Bool

/-- App::resumed (src/lib.rs:198-244): build the two windows and surfaces,
the GPU context, both WindowContexts and the GuiContext, then store the
fresh Qualia in `self.state`. On a construction failure it logs and returns
with the state unchanged. The outer none models the panic of
WindowContext::from_raw on empty capability lists. The source performs no
check of the existing state: it reinitializes unconditionally. -/
def App.resumed (app : App) (env : ResumedEnv) : Option App :=
  match env.view_window_and_surface with
  | .error _ => some app
  | .ok vws =>
    match env.control_window_and_surface with
    | .error _ => some app
    | .ok cws =>
      match env.gpu with
      | .error _ => some app
      | .ok gpu =>
        match WindowContext.from_raw vws.1 vws.2 gpu.adapter gpu.device,
              WindowContext.from_raw cws.1 cws.2 gpu.adapter gpu.device with
        | some vc, some cc =>
            let gui := GuiContext.new cc.1.window gpu.device
              cc.1.config.format env.gui_behavior
            let q : Qualia :=
              { gpu := gpu, view_window := vc.1, control_window := cc.1,
                gui := gui }
            some { state := some q }
        | _, _ => none

/-- Observation: the configured width of the view window held in the shell
state, when a session is held. -/
def App.viewConfigWidth (app : App) : Option Nat :=
  app.state.map fun q => q.view_window.config.width

/-- Success predicate on a resumed environment: all three fallible
construction steps succeed. -/
def ResumedEnv.succeeds (env : ResumedEnv) : Bool :=
  (match env.view_window_and_surface with
   | .ok _ => true | .error _ => false) &&
  (match env.control_window_and_surface with
   | .ok _ => true | .error _ => false) &&
  (match env.gpu with
   | .ok _ => true | .error _ => false)

/-! Concrete fixtures used by witnesses and counterexamples. -/

/-- A non-sRGB pixel format. -/
def formatBgra : TextureFormat :=
  { id := 0, srgb := false }

/-- An sRGB pixel format. -/
def formatBgraSrgb : TextureFormat :=
  { id := 1, srgb := true }

/-- A concrete alpha-compositing mode. -/
def alpha0 : AlphaMode :=
  { id := 0 }

/-- A concrete GPU context. -/
def gpu0 : GpuContext :=
  { inst := { id := 0 }, adapter := { id := 0 }, device := { id := 0 },
    queue := { id := 0 } }

/-- A concrete surface configuration at 800x600. -/
def config800 : SurfaceConfiguration :=
  { usage := TextureUsage.renderAttachment
    format := formatBgraSrgb
    width := 800
    height := 600
    present_mode := PresentMode.fifo
    alpha_mode := alpha0
    view_formats := []
    desired_maximum_frame_latency := 2 }

/-- Capability sets offering a non-sRGB and an sRGB format. -/
def caps0 : SurfaceCapabilities :=
  { formats := [formatBgra, formatBgraSrgb], alpha_modes := [alpha0] }

/-- A surface whose next frame acquisition would fail with Lost. -/
def surfaceFailing : Surface :=
  { caps := caps0, nextFrame := .error SurfaceError.lost }

/-- A surface whose next frame acquisition succeeds. -/
def surfaceOk : Surface :=
  { caps := caps0, nextFrame := .ok { texture := 7 } }

/-- A view WindowContext (window id 1) whose surface would fail to acquire. -/
def viewCtxFail : WindowContext :=
  { window := { id := 1, inner_size := { width := 800, height := 600 } }
    surface := surfaceFailing
    config := config800 }

/-- A control WindowContext (window id 2) with a healthy surface. -/
def controlCtx0 : WindowContext :=
  { window := { id := 2, inner_size := { width := 640, height := 480 } }
    surface := surfaceOk
    config := { config800 with width := 640, height := 480 } }

/-- A GuiContext whose external UI never consumes events. -/
def guiNever : GuiContext :=
  GuiContext.new controlCtx0.window gpu0.device config800.format
    (fun _ => false)

/-- A GuiContext whose external UI consumes every event. -/
def guiAlways : GuiContext :=
  GuiContext.new controlCtx0.window gpu0.device config800.format
    (fun _ => true)

/-- A concrete session: view id 1 (failing surface), control id 2, UI never
consumes. -/
def sessionFail : Session :=
  { gpu := gpu0, view := viewCtxFail, control := controlCtx0,
    gui := guiNever }

/-- A concrete session whose UI consumes every control-window event. -/
def sessionConsuming : Session :=
  { gpu := gpu0, view := viewCtxFail, control := controlCtx0,
    gui := guiAlways }

/-- A concrete shell state already holding a session (view width 800). -/
def app8 : App :=
  { state := some
      { gpu := gpu0, view_window := viewCtxFail,
        control_window := controlCtx0, gui := guiNever } }

/-- A resumed environment whose fresh view window reports size 1024x768. -/
def env8 : ResumedEnv :=
  { view_window_and_surface :=
      .ok ({ id := 1, inner_size := { width := 1024, height := 768 } },
        surfaceOk)
    control_window_and_surface :=
      .ok ({ id := 2, inner_size := { width := 640, height := 480 } },
        surfaceOk)
    gpu := .ok gpu0
    gui_behavior := fun _ => false }

/-! Helper lemmas (shared). -/

/-- List.find? returns the earliest element satisfying the predicate. -/
theorem find?_is_earliest {α : Type} (p : α → Bool) :
    ∀ (l : List α) (f : α), l.find? p = some f →
      ∃ j, ∃ hj : j < l.length, l.get ⟨j, hj⟩ = f ∧ p f = true ∧
        ∀ i, (hi : i < l.length) → p (l.get ⟨i, hi⟩) = true → j ≤ i := by
  intro l
  induction l with
  | nil => intro f hf; simp [List.find?] at hf
  | cons a t ih =>
      intro f hf
      by_cases hp : p a = true
      · rw [List.find?_cons_of_pos _ hp] at hf
        cases hf
        exact ⟨0, by simp, rfl, hp, fun i hi _ => Nat.zero_le i⟩
      · rw [List.find?_cons_of_neg _ (by simpa using hp)] at hf
        obtain ⟨j, hj, hget, hpf, hmin⟩ := ih f hf
        refine ⟨j + 1, by simpa using Nat.succ_lt_succ hj, by simpa using hget,
          hpf, ?_⟩
        intro i hi hpi
        cases i with
        | zero => simp at hpi; exact absurd hpi hp
        | succ k =>
            have hk : k < t.length := by
              simpa using Nat.lt_of_succ_lt_succ hi
            have := hmin k hk (by simpa using hpi)
            omega

/-- WindowContext::resize never changes the window handle. -/
theorem resize_preserves_window (wc : WindowContext) (d : Device)
    (size : PhysicalSize) : (wc.resize d size).1.window = wc.window := by
  unfold WindowContext.resize
  split <;> rfl

/-- Session::update never changes the window handles nor the GUI state. -/
theorem update_preserves_handles (s : Session) (wid : Nat)
    (e : WindowEvent) :
    ((s.update wid e).session).view.window = s.view.window ∧
    ((s.update wid e).session).control.window = s.control.window ∧
    ((s.update wid e).session).gui.state.consumes = s.gui.state.consumes := by
  cases e with
  | closeRequested =>
      simp only [Session.update]
      split
      · exact ⟨rfl, rfl, rfl⟩
      · exact ⟨rfl, rfl, rfl⟩
  | resized sz =>
      simp only [Session.update]
      split
      · exact ⟨rfl, rfl, rfl⟩
      · split
        · exact ⟨resize_preserves_window s.view s.gpu.device sz, rfl, rfl⟩
        · split
          · exact ⟨rfl, resize_preserves_window s.control s.gpu.device sz,
              rfl⟩
          · exact ⟨rfl, rfl, rfl⟩
  | redrawRequested =>
      simp only [Session.update]
      split
      · exact ⟨rfl, rfl, rfl⟩
      · split
        · exact ⟨rfl, rfl, rfl⟩
        · split
          · exact ⟨rfl, rfl, rfl⟩
          · exact ⟨rfl, rfl, rfl⟩
  | other tag =>
      simp only [Session.update]
      split
      · exact ⟨rfl, rfl, rfl⟩
      · exact ⟨rfl, rfl, rfl⟩

/-- Session::run never changes the window handles nor the GUI state. -/
theorem run_preserves_handles (evs : List (Nat × WindowEvent)) :
    ∀ s : Session,
    ((s.run evs)).view.window = s.view.window ∧
    ((s.run evs)).control.window = s.control.window ∧
    ((s.run evs)).gui.state.consumes = s.gui.state.consumes := by
  induction evs with
  | nil => intro s; exact ⟨rfl, rfl, rfl⟩
  | cons p t ih =>
      intro s
      have h1 := update_preserves_handles s p.1 p.2
      have h2 := ih ((s.update p.1 p.2).session)
      refine ⟨?_, ?_, ?_⟩
      · rw [Session.run, List.foldl_cons]
        exact (h2.1).trans h1.1
      · rw [Session.run, List.foldl_cons]
        exact (h2.2.1).trans h1.2.1
      · rw [Session.run, List.foldl_cons]
        exact (h2.2.2).trans h1.2.2

/-- C5: Pixel-format selection in WindowContext creation is deterministic and
total: for every non-empty supported-format list, the selected format exists,
is an element of the list, equals the list's first entry when no sRGB entry
exists, and, whenever an sRGB entry occurs at some position, the selected
format is sRGB and occurs at a position no later than it (so it is the first
sRGB-tagged entry). -/
theorem C5_format_selection (formats : List TextureFormat)
    (h : formats ≠ []) :
    (selectFormat formats).isSome = true ∧
    (∀ f, selectFormat formats = some f → f ∈ formats) ∧
    ((∀ g ∈ formats, g.is_srgb = false) →
      selectFormat formats = formats.head?) ∧
    (∀ f i, (hi : i < formats.length) → selectFormat formats = some f →
      (formats.get ⟨i, hi⟩).is_srgb = true →
      f.is_srgb = true ∧
      ∃ j, ∃ hj : j < formats.length, j ≤ i ∧ formats.get ⟨j, hj⟩ = f) := by
  cases hf : formats.find? TextureFormat.is_srgb with
  | some g =>
      have hsel : selectFormat formats = some g := by
        simp [selectFormat, hf]
      obtain ⟨j, hj, hget, hpg, hmin⟩ :=
        find?_is_earliest TextureFormat.is_srgb formats g hf
      refine ⟨by simp [hsel], ?_, ?_, ?_⟩
      · intro f hfe
        rw [hsel] at hfe
        cases hfe
        exact hget ▸ formats.get_mem j hj
      · intro hall
        have hg : g ∈ formats := hget ▸ formats.get_mem j hj
        exact absurd hpg (by simp [hall g hg])
      · intro f i hi hfe hsrgb
        rw [hsel] at hfe
        cases hfe
        exact ⟨hpg, j, hj, hmin i hi hsrgb, hget⟩
  | none =>
      have hsel : selectFormat formats = formats.head? := by
        simp [selectFormat, hf]
      have hall : ∀ g ∈ formats, TextureFormat.is_srgb g = false := by
        intro g hg
        have := List.find?_eq_none.mp hf g hg
        simpa using this
      cases formats with
      | nil => exact absurd rfl h
      | cons a t =>
          refine ⟨by simp [hsel], ?_, fun _ => hsel, ?_⟩
          · intro f hfe
            rw [hsel] at hfe
            simp at hfe
            simp [hfe]
          · intro f i hi hfe hsrgb
            have hmem := (a :: t).get_mem i hi
            have := hall _ hmem
            rw [this] at hsrgb
            cases hsrgb

/-- C5 witness: concrete format lists. On [non-sRGB, sRGB] the selection is
defined; the sRGB entry is selected and is a member; on [non-sRGB] alone the
head is selected. -/
theorem C5_format_selection_witness :
    ([formatBgra, formatBgraSrgb] ≠ [] ∧
      (selectFormat [formatBgra, formatBgraSrgb]).isSome = true) ∧
    formatBgraSrgb ∈ [formatBgra, formatBgraSrgb] ∧
    ([formatBgra] ≠ [] ∧
      selectFormat [formatBgra] = [formatBgra].head?) := by
  refine ⟨⟨by decide, (C5_format_selection [formatBgra, formatBgraSrgb]
      (by decide)).1⟩, ?_, ⟨by decide, ?_⟩⟩
  · exact (C5_format_selection [formatBgra, formatBgraSrgb]
      (by decide)).2.1 formatBgraSrgb (by decide)
  · exact (C5_format_selection [formatBgra] (by decide)).2.2.1 (by decide)

/-- C6: for every WindowContext and every size with positive width and
height, resize stores exactly (max(w,1), max(h,1)) = (w, h) as the
configuration's dimensions, reconfigures the surface with exactly the stored
configuration, and a second resize with the same size yields the same
configuration. -/
theorem C6_resize_nonzero (wc : WindowContext) (device : Device)
    (size : PhysicalSize) (hw : 0 < size.width) (hh : 0 < size.height) :
    ((wc.resize device size).1.config.width = max size.width 1 ∧
     (wc.resize device size).1.config.width = size.width) ∧
    ((wc.resize device size).1.config.height = max size.height 1 ∧
     (wc.resize device size).1.config.height = size.height) ∧
    (wc.resize device size).2 =
      [Effect.surfaceConfigure wc.window.id (wc.resize device size).1.config] ∧
    ((wc.resize device size).1.resize device size).1.config =
      (wc.resize device size).1.config := by
  have hcond : 0 < size.width ∧ 0 < size.height := ⟨hw, hh⟩
  refine ⟨⟨?_, ?_⟩, ⟨?_, ?_⟩, ?_, ?_⟩ <;>
    simp [WindowContext.resize, hcond, Nat.max_eq_left hw, Nat.max_eq_left hh]

/-- C6 witness: resizing the concrete control context to 1024x768 stores
exactly those dimensions and is idempotent. -/
theorem C6_resize_nonzero_witness :
    (0 < (1024 : Nat) ∧ 0 < (768 : Nat)) ∧
    (controlCtx0.resize gpu0.device
      { width := 1024, height := 768 }).1.config.width = 1024 ∧
    (controlCtx0.resize gpu0.device
      { width := 1024, height := 768 }).1.config.height = 768 ∧
    ((controlCtx0.resize gpu0.device { width := 1024, height := 768 }).1.resize
        gpu0.device { width := 1024, height := 768 }).1.config =
      (controlCtx0.resize gpu0.device
        { width := 1024, height := 768 }).1.config := by
  have h := C6_resize_nonzero controlCtx0 gpu0.device
    { width := 1024, height := 768 } (by decide) (by decide)
  exact ⟨⟨by decide, by decide⟩, h.1.2, h.2.1.2, h.2.2.2⟩

/-- C7: for every WindowContext and every size with a zero width or height,
resize is a no-op: the whole context (in particular every field of the stored
configuration) is unchanged and no surface reconfiguration effect occurs. -/
theorem C7_resize_zero_noop (wc : WindowContext) (device : Device)
    (size : PhysicalSize) (h : size.width = 0 ∨ size.height = 0) :
    wc.resize device size = (wc, []) := by
  have hcond : ¬(0 < size.width ∧ 0 < size.height) := by
    rcases h with h0 | h0 <;> omega
  simp only [WindowContext.resize, if_neg hcond]

/-- C7 witness: a zero-width resize of the concrete control context changes
nothing and configures nothing. -/
theorem C7_resize_zero_noop_witness :
    ((0 : Nat) = 0 ∨ (768 : Nat) = 0) ∧
    controlCtx0.resize gpu0.device { width := 0, height := 768 } =
      (controlCtx0, []) :=
  ⟨Or.inl rfl, C7_resize_zero_noop controlCtx0 gpu0.device
    { width := 0, height := 768 } (Or.inl rfl)⟩

/-- C10: for every session, window id and event, Session::update returns Ok:
no branch produces an Err, since the resize and redraw paths return Ok
unconditionally and the SessionError variants arise only in construction. -/
theorem C10_update_never_errs (s : Session) (wid : Nat) (e : WindowEvent) :
    ∃ a, (s.update wid e).result = Except.ok a := by
  cases e with
  | closeRequested =>
      simp only [Session.update]
      split
      · exact ⟨none, rfl⟩
      · exact ⟨some SessionAction.Exit, rfl⟩
  | resized sz =>
      simp only [Session.update]
      split
      · exact ⟨none, rfl⟩
      · split
        · exact ⟨none, rfl⟩
        · split
          · exact ⟨none, rfl⟩
          · exact ⟨none, rfl⟩
  | redrawRequested =>
      simp only [Session.update]
      split
      · exact ⟨none, rfl⟩
      · split
        · exact ⟨none, rfl⟩
        · split
          · exact ⟨none, rfl⟩
          · exact ⟨none, rfl⟩
  | other tag =>
      simp only [Session.update]
      split
      · exact ⟨none, rfl⟩
      · exact ⟨none, rfl⟩

/-- C3: every event delivered with the control window's id that the GUI
reports consumed makes update return Ok(None) immediately with no further
dispatch: the session state is unchanged (no WindowContext resized, no
render path entered) and the only external effect is the GUI forwarding
itself. -/
theorem C3_consumed_short_circuits (s : Session) (e : WindowEvent)
    (h : s.gui.state.consumes e = true) :
    (s.update s.control.window.id e).result = Except.ok none ∧
    (s.update s.control.window.id e).session = s ∧
    (s.update s.control.window.id e).trace =
      [Effect.guiOnWindowEvent true] := by
  have hcond : s.control.window.id = s.control.window.id ∧
      s.gui.state.consumes e = true := ⟨rfl, h⟩
  simp only [Session.update, if_pos hcond, if_pos rfl, h]
  exact ⟨rfl, rfl, rfl⟩

/-- C3 witness: with the concrete always-consuming session, a resize event at
the control window id is swallowed: Ok(None), unchanged state, GUI-forward
only. -/
theorem C3_consumed_short_circuits_witness :
    sessionConsuming.gui.state.consumes
      (WindowEvent.resized { width := 50, height := 50 }) = true ∧
    (sessionConsuming.update sessionConsuming.control.window.id
      (WindowEvent.resized { width := 50, height := 50 })).result =
      Except.ok none ∧
    (sessionConsuming.update sessionConsuming.control.window.id
      (WindowEvent.resized { width := 50, height := 50 })).session =
      sessionConsuming ∧
    (sessionConsuming.update sessionConsuming.control.window.id
      (WindowEvent.resized { width := 50, height := 50 })).trace =
      [Effect.guiOnWindowEvent true] :=
  ⟨rfl, C3_consumed_short_circuits sessionConsuming
    (WindowEvent.resized { width := 50, height := 50 }) rfl⟩

/-- C4: a CloseRequested event yields Ok(Some(Exit)) from update both at the
view window's id and at the control window's id, assuming the GUI does not
consume the event. -/
theorem C4_close_requested_exits (s : Session)
    (h : s.gui.state.consumes WindowEvent.closeRequested = false) :
    (s.update s.view.window.id WindowEvent.closeRequested).result =
      Except.ok (some SessionAction.Exit) ∧
    (s.update s.control.window.id WindowEvent.closeRequested).result =
      Except.ok (some SessionAction.Exit) := by
  constructor <;> · simp only [Session.update, h]
                    split
                    · simp_all
                    · rfl

/-- C4 witness: on the concrete never-consuming session, CloseRequested at
window id 1 (view) and at window id 2 (control) both return Some(Exit). -/
theorem C4_close_requested_exits_witness :
    sessionFail.gui.state.consumes WindowEvent.closeRequested = false ∧
    (sessionFail.update sessionFail.view.window.id
      WindowEvent.closeRequested).result =
      Except.ok (some SessionAction.Exit) ∧
    (sessionFail.update sessionFail.control.window.id
      WindowEvent.closeRequested).result =
      Except.ok (some SessionAction.Exit) :=
  ⟨rfl, C4_close_requested_exits sessionFail rfl⟩

/-- C1: with distinct window ids, after any sequence of update calls,
a RedrawRequested update at the view window's id enters the view render path
and never the control one, and a RedrawRequested update at the control
window's id never enters the view render path, entering the control one
whenever the GUI does not consume the event. -/
theorem C1_redraw_dispatch_exclusive (s : Session)
    (h : s.view.window.id ≠ s.control.window.id)
    (evs : List (Nat × WindowEvent)) :
    (Effect.renderView ∈
        ((s.run evs).update s.view.window.id
          WindowEvent.redrawRequested).trace ∧
      Effect.renderControl ∉
        ((s.run evs).update s.view.window.id
          WindowEvent.redrawRequested).trace) ∧
    (Effect.renderView ∉
        ((s.run evs).update s.control.window.id
          WindowEvent.redrawRequested).trace ∧
      ((s.run evs).gui.state.consumes WindowEvent.redrawRequested = false →
        Effect.renderControl ∈
          ((s.run evs).update s.control.window.id
            WindowEvent.redrawRequested).trace)) := by
  obtain ⟨hv, hc, _⟩ := run_preserves_handles evs s
  have hvid : (s.run evs).view.window.id = s.view.window.id := by rw [hv]
  have hcid : (s.run evs).control.window.id = s.control.window.id := by
    rw [hc]
  have hne : s.view.window.id ≠ (s.run evs).control.window.id := by
    rw [hcid]; exact h
  constructor
  · have hcond : ¬(s.view.window.id = (s.run evs).control.window.id ∧
        (s.run evs).gui.state.consumes WindowEvent.redrawRequested = true) :=
      fun hand => hne hand.1
    simp only [Session.update, if_neg hcond, hvid, if_pos rfl,
      Session.render_view, if_neg hne]
    constructor
    · simp
    · simp
  · by_cases hcons :
      (s.run evs).gui.state.consumes WindowEvent.redrawRequested = true
    · have hcond : s.control.window.id = (s.run evs).control.window.id ∧
          (s.run evs).gui.state.consumes WindowEvent.redrawRequested =
            true := ⟨hcid.symm, hcons⟩
      simp only [Session.update, if_pos hcond]
      constructor
      · simp
      · intro hfalse; rw [hcons] at hfalse; cases hfalse
    · have hcond : ¬(s.control.window.id = (s.run evs).control.window.id ∧
          (s.run evs).gui.state.consumes WindowEvent.redrawRequested =
            true) := fun hand => hcons hand.2
      have hnv : ¬(s.control.window.id = (s.run evs).view.window.id) := by
        rw [hvid]; exact fun hh => h hh.symm
      simp only [Session.update, if_neg hcond, if_neg hnv, hcid, if_pos rfl,
        Session.render_control]
      constructor
      · simp [hcons]
      · intro _; simp [hcons]

/-- C1 witness: for the concrete session (view id 1, control id 2) after a
resize and a close event, redraw at id 1 enters only the view render path
and redraw at id 2 enters only the control render path. -/
theorem C1_redraw_dispatch_exclusive_witness :
    sessionFail.view.window.id ≠ sessionFail.control.window.id ∧
    (Effect.renderView ∈
        ((sessionFail.run [(2, WindowEvent.resized
            { width := 100, height := 100 }), (1, WindowEvent.other 0)]).update
          sessionFail.view.window.id WindowEvent.redrawRequested).trace ∧
      Effect.renderControl ∉
        ((sessionFail.run [(2, WindowEvent.resized
            { width := 100, height := 100 }), (1, WindowEvent.other 0)]).update
          sessionFail.view.window.id WindowEvent.redrawRequested).trace) ∧
    (Effect.renderView ∉
        ((sessionFail.run [(2, WindowEvent.resized
            { width := 100, height := 100 }), (1, WindowEvent.other 0)]).update
          sessionFail.control.window.id WindowEvent.redrawRequested).trace ∧
      Effect.renderControl ∈
        ((sessionFail.run [(2, WindowEvent.resized
            { width := 100, height := 100 }), (1, WindowEvent.other 0)]).update
          sessionFail.control.window.id WindowEvent.redrawRequested).trace) := by
  have h := C1_redraw_dispatch_exclusive sessionFail (by decide)
    [(2, WindowEvent.resized { width := 100, height := 100 }),
     (1, WindowEvent.other 0)]
  exact ⟨by decide, h.1, h.2.1, h.2.2 rfl⟩

/-- C2 counterexample: on the concrete session whose view surface is in a
state where any conforming renderer's frame acquisition would fail
(nextFrame = Lost), update with the view window's id and RedrawRequested
still returns Ok(None) — not an Err wrapping a RenderError — and its trace
contains no frame acquisition at all, so no renderer is invoked whose
failure could be wrapped. -/
theorem C2_counterexample :
    sessionFail.view.surface.nextFrame = Except.error SurfaceError.lost ∧
    (sessionFail.update sessionFail.view.window.id
      WindowEvent.redrawRequested).result = Except.ok none ∧
    (sessionFail.update sessionFail.view.window.id
      WindowEvent.redrawRequested).trace =
      [Effect.renderView, Effect.requestRedraw 1] ∧
    Effect.getCurrentTexture 1 ∉
      (sessionFail.update sessionFail.view.window.id
        WindowEvent.redrawRequested).trace := by
  refine ⟨rfl, rfl, rfl, ?_⟩
  decide

/-- C2 (amended): Session::update's RedrawRequested dispatch is infallible in
the source: the render paths are stubs that only request a redraw (no
renderer invocation, no frame acquisition), update returns Ok(None) and
leaves the session unchanged; SessionError carries only construction
variants, so no render error is ever wrapped or returned. -/
theorem C2_redraw_dispatch_infallible (s : Session) (wid : Nat) :
    (s.update wid WindowEvent.redrawRequested).result = Except.ok none ∧
    (s.update wid WindowEvent.redrawRequested).session = s ∧
    (∀ w, Effect.getCurrentTexture w ∉
      (s.update wid WindowEvent.redrawRequested).trace) := by
  simp only [Session.update]
  split
  · refine ⟨rfl, rfl, ?_⟩
    intro w
    simp
  · split
    · refine ⟨rfl, rfl, ?_⟩
      intro w
      by_cases hc : wid = s.control.window.id <;>
        simp [hc, Session.render_view]
    · split
      · refine ⟨rfl, rfl, ?_⟩
        intro w
        by_cases hc : wid = s.control.window.id <;>
          simp [hc, Session.render_control]
      · refine ⟨rfl, rfl, ?_⟩
        intro w
        by_cases hc : wid = s.control.window.id <;> simp [hc]

/-- C2 amended-claim witness: at the concrete failing-surface session and the
view window id, the redraw dispatch returns Ok(None), keeps the session, and
performs no frame acquisition for window 1. -/
theorem C2_redraw_dispatch_infallible_witness :
    (sessionFail.update 1 WindowEvent.redrawRequested).result =
      Except.ok none ∧
    (sessionFail.update 1 WindowEvent.redrawRequested).session =
      sessionFail ∧
    Effect.getCurrentTexture 1 ∉
      (sessionFail.update 1 WindowEvent.redrawRequested).trace :=
  ⟨(C2_redraw_dispatch_infallible sessionFail 1).1,
    (C2_redraw_dispatch_infallible sessionFail 1).2.1,
    (C2_redraw_dispatch_infallible sessionFail 1).2.2 1⟩

/-- C9: the Renderer::render protocol (with the variant-defined recording
step modelled opaquely) begins with frame acquisition as its first and only
fallible step; on success it performs, in order, acquisition, view creation,
command recording, submission to the shared queue, presentation, and a
redraw request of the target window, returning Ok; on acquisition failure it
returns the RenderError wrapping of the surface error and performs nothing
further. -/
theorem C9_render_protocol (gpu : GpuContext) (target : WindowContext) :
    ((Renderer.render gpu target).2.head? =
      some (Effect.getCurrentTexture target.window.id)) ∧
    (∀ frame, target.surface.nextFrame = Except.ok frame →
      (Renderer.render gpu target).1 = Except.ok () ∧
      (Renderer.render gpu target).2 =
        [Effect.getCurrentTexture target.window.id,
         Effect.createTextureView,
         Effect.createCommandEncoder,
         Effect.recordCommands target.window.id,
         Effect.queueSubmit,
         Effect.present,
         Effect.requestRedraw target.window.id]) ∧
    (∀ e, target.surface.nextFrame = Except.error e →
      (Renderer.render gpu target).1 =
        Except.error (RenderError.GetFrame e) ∧
      (Renderer.render gpu target).2 =
        [Effect.getCurrentTexture target.window.id]) := by
  cases hf : target.surface.nextFrame with
  | error e =>
      refine ⟨?_, ?_, ?_⟩
      · simp [Renderer.render, hf]
      · intro frame hfr; simp at hfr
      · intro e2 he2
        injection he2 with he3
        subst he3
        constructor <;> simp [Renderer.render, hf]
  | ok frame =>
      refine ⟨?_, ?_, ?_⟩
      · simp [Renderer.render, hf]
      · intro fr hfr
        injection hfr with hfr2
        subst hfr2
        constructor <;> simp [Renderer.render, hf]
      · intro e he; simp at he

/-- C9 witness: the protocol evaluated at a concrete healthy target runs all
six steps in order and returns Ok; at a concrete lost-surface target it
returns the wrapped acquisition error having only attempted acquisition. -/
theorem C9_render_protocol_witness :
    (Renderer.render gpu0 controlCtx0).1 = Except.ok () ∧
    (Renderer.render gpu0 controlCtx0).2 =
      [Effect.getCurrentTexture 2, Effect.createTextureView,
       Effect.createCommandEncoder, Effect.recordCommands 2,
       Effect.queueSubmit, Effect.present, Effect.requestRedraw 2] ∧
    (Renderer.render gpu0 viewCtxFail).1 =
      Except.error (RenderError.GetFrame SurfaceError.lost) ∧
    (Renderer.render gpu0 viewCtxFail).2 =
      [Effect.getCurrentTexture 1] :=
  ⟨((C9_render_protocol gpu0 controlCtx0).2.1 { texture := 7 } rfl).1,
    ((C9_render_protocol gpu0 controlCtx0).2.1 { texture := 7 } rfl).2,
    ((C9_render_protocol gpu0 viewCtxFail).2.2 SurfaceError.lost rfl).1,
    ((C9_render_protocol gpu0 viewCtxFail).2.2 SurfaceError.lost rfl).2⟩

/-- C8 counterexample: the shell already holds a session whose view
configuration width is 800, yet a repeated resumed signal is not a no-op:
App::resumed re-runs initialization against the environment and replaces the
stored session, whose view configuration width becomes the fresh window's
1024. -/
theorem C8_counterexample :
    App.viewConfigWidth app8 = some 800 ∧
    Option.bind (App.resumed app8 env8) App.viewConfigWidth = some 1024 :=
  ⟨rfl, rfl⟩

/-- C8 (amended): a repeated ready/resumed signal is not a no-op: whenever
the three fallible construction steps succeed, App::resumed discards any
previously held session state and stores a freshly constructed one — its
result is independent of the prior state. -/
theorem C8_resumed_reinitializes (app : App) (env : ResumedEnv)
    (h : env.succeeds = true) :
    App.resumed app env = App.resumed { state := none } env := by
  unfold ResumedEnv.succeeds at h
  cases hv : env.view_window_and_surface with
  | error e => rw [hv] at h; cases h
  | ok vws =>
      cases hcw : env.control_window_and_surface with
      | error e => rw [hv, hcw] at h; cases h
      | ok cws =>
          cases hg : env.gpu with
          | error e => rw [hv, hcw, hg] at h; cases h
          | ok gpu => simp only [App.resumed, hv, hcw, hg]

/-- C8 amended-claim witness: on the concrete already-active shell state and
succeeding environment, resumed produces the same result as from an empty
shell. -/
theorem C8_resumed_reinitializes_witness :
    env8.succeeds = true ∧
    App.resumed app8 env8 = App.resumed { state := none } env8 :=
  ⟨rfl, C8_resumed_reinitializes app8 env8 rfl⟩

end QualiaSpec
